import Mathlib

/-!
# Verification of the DCF valuation pipeline (`dcf.py`)

Shallow embedding of the discounted-cash-flow valuation program over exact
rationals (`ℚ`).  Machine floats are modelled as exact rationals; Python's
division, which raises `ZeroDivisionError` on a zero denominator, is modelled
by `pdiv` returning `Except DCFError ℚ`, and all fallible code runs in the
`Except DCFError` monad.  The margin quotient is the exception: there the
dividend is a numpy scalar (its `.item()` calls require it) and numpy
division never raises, so it is modelled by the total `npdiv` instead.  External data (the yfinance snapshot of prices,
statements, growth estimates, and the fetched 10-year treasury yield) is
modelled as an immutable `FinancialSnapshot` record, exactly as the program
reads it; a batch run draws its snapshots from an environment
`String → Option FinancialSnapshot` (a `none` entry models an unknown ticker).
-/

/-- The per-ticker financial data the program reads from its external data
provider: market quote, balance sheet, income statement, cash-flow statement
and the analyst one-year growth estimate.  `interestExpense` is `Option`al:
the program substitutes `0` when the "Interest Expense" row is missing or
not-a-number. -/
structure FinancialSnapshot where
  currentPrice : ℚ
  marketCap : ℚ
  beta : ℚ
  sharesOutstanding : ℚ
  riskFreeRate : ℚ
  totalDebt : ℚ
  interestExpense : Option ℚ
  taxProvision : ℚ
  pretaxIncome : ℚ
  freeCashFlow : ℚ
  cashAndEquivalents : ℚ
  nearTermGrowthEstimate : ℚ
deriving DecidableEq

/-- The error conditions a per-ticker computation can signal:
a Python `ZeroDivisionError`, or an unknown ticker at the data provider. -/
inductive DCFError where
  | divisionByZero : DCFError
  | notFound : DCFError
deriving DecidableEq

instance {ε α : Type} [DecidableEq ε] [DecidableEq α] : DecidableEq (Except ε α) := fun x y =>
  match x, y with
  | Except.ok a, Except.ok b =>
      if h : a = b then isTrue (by rw [h]) else isFalse (by intro hc; cases hc; exact h rfl)
  | Except.ok _, Except.error _ => isFalse (by intro hc; cases hc)
  | Except.error _, Except.ok _ => isFalse (by intro hc; cases hc)
  | Except.error e, Except.error f =>
      if h : e = f then isTrue (by rw [h]) else isFalse (by intro hc; cases hc; exact h rfl)

/-- Python division: raises (here: returns `Except.error`) on a zero
denominator, otherwise returns the exact quotient. -/
def pdiv (a b : ℚ) : Except DCFError ℚ :=
  if b = 0 then Except.error DCFError.divisionByZero else Except.ok (a / b)

/-- Whether a fallible computation succeeded. -/
def is_ok {α : Type} : Except DCFError α → Bool
  | Except.ok _ => true
  | Except.error _ => false

/-- `get_risk_free_rate` fetches the 10-year treasury yield from the market
data provider; the fetched value is carried in the snapshot. -/
def get_risk_free_rate (s : FinancialSnapshot) : ℚ :=
  s.riskFreeRate

/-- `get_market_return`: the program assumes a constant 10% annual S&P 500
return. -/
def get_market_return : ℚ := 1 / 10

/-- `get_wacc`: cost of equity by CAPM, cost of debt as interest expense over
total debt (missing interest expense defaults to 0), effective tax rate as
tax provision over pretax income, capital weights from market cap and total
debt, blended into the weighted average cost of capital. -/
def get_wacc (s : FinancialSnapshot) : Except DCFError ℚ := do
  let risk_free_rate := get_risk_free_rate s
  let market_return := get_market_return
  let cost_of_equity := risk_free_rate + s.beta * (market_return - risk_free_rate)
  let interest_expense := s.interestExpense.getD 0
  let cost_of_debt ← pdiv interest_expense s.totalDebt
  let tax_rate ← pdiv s.taxProvision s.pretaxIncome
  let total_value := s.marketCap + s.totalDebt
  let weight_equity ← pdiv s.marketCap total_value
  let weight_debt ← pdiv s.totalDebt total_value
  Except.ok (weight_equity * cost_of_equity + weight_debt * cost_of_debt * (1 - tax_rate))

/-- `get_free_cash_flow`: most recent free cash flow from the cash-flow
statement. -/
def get_free_cash_flow (s : FinancialSnapshot) : ℚ :=
  s.freeCashFlow

/-- `get_discount_rate` is the WACC. -/
def get_discount_rate (s : FinancialSnapshot) : Except DCFError ℚ :=
  get_wacc s

/-- `get_growth_rate`: the 3% perpetual (terminal) growth rate when
`perpetual` is set, otherwise the analyst one-year-forward growth estimate. -/
def get_growth_rate (s : FinancialSnapshot) (perpetual : Bool := false) : ℚ :=
  if perpetual then 3 / 100 else s.nearTermGrowthEstimate

/-- `get_share_num`: shares outstanding. -/
def get_share_num (s : FinancialSnapshot) : ℚ :=
  s.sharesOutstanding

/-- `get_terminal_value`: Gordon growth terminal value
`fcf * (1 + g)^years / (r - g)` with the perpetual growth rate `g` and the
WACC `r`. -/
def get_terminal_value (s : FinancialSnapshot) (years : ℕ := 10) : Except DCFError ℚ := do
  let fcf := get_free_cash_flow s
  let growth_rate := get_growth_rate s true
  let discount_rate ← get_discount_rate s
  pdiv (fcf * (1 + growth_rate) ^ years) (discount_rate - growth_rate)

/-- The projection-and-discounting loop of `compute_dcf`: the accumulator
after the iterations for years `1, ..., n`, each adding
`fcf * (1 + growth_rate)^year / (1 + discount_rate)^year`. -/
def project_loop (fcf growth_rate discount_rate : ℚ) : ℕ → Except DCFError ℚ
  | 0 => Except.ok 0
  | n + 1 => do
      let acc ← project_loop fcf growth_rate discount_rate n
      let q ← pdiv (fcf * (1 + growth_rate) ^ (n + 1)) ((1 + discount_rate) ^ (n + 1))
      Except.ok (acc + q)

/-- `compute_dcf`: discounted sum of projected cash flows, plus terminal
value, plus cash and equivalents, minus total debt, divided by the share
count.  Returns the intrinsic value per share. -/
def compute_dcf (s : FinancialSnapshot) (years : ℕ := 10) : Except DCFError ℚ := do
  let fcf := get_free_cash_flow s
  let discount_rate ← get_discount_rate s
  let growth_rate := get_growth_rate s
  let dcf_value ← project_loop fcf growth_rate discount_rate years
  let terminal_value ← get_terminal_value s years
  pdiv (dcf_value + terminal_value + s.cashAndEquivalents - s.totalDebt) (get_share_num s)

/-- `current_sure_value`: the current traded price. -/
def current_sure_value (s : FinancialSnapshot) : ℚ :=
  s.currentPrice

/-- Round a rational to the nearest integer, ties to the even integer
(Python's `round` on exact halves). -/
def roundHalfEven (q : ℚ) : ℤ :=
  let f := ⌊q⌋
  if q - f < 1 / 2 then f
  else if 1 / 2 < q - f then f + 1
  else if f % 2 = 0 then f else f + 1

/-- Python's `round(x, 2)`: round to two decimal places. -/
def roundTo2 (q : ℚ) : ℚ :=
  (roundHalfEven (q * 100) : ℚ) / 100

/-- numpy float64 division, as in the margin quotient
`(dcf_val - current_val) / current_val`: `dcf_val` is a numpy scalar (the
`.item()` calls on this line require it), and numpy division never raises —
on a zero denominator it emits a `RuntimeWarning` and produces a non-finite
float (±inf/nan), a value that lies outside `ℚ`.  The model returns the exact
quotient for a nonzero denominator; at a zero denominator the non-finite
float is not representable, and the returned rational (Lean's `x / 0 = 0`
junk-value convention) is meaningless — the model is value-faithful exactly
on the nonzero-denominator domain, and no theorem below inspects the value
at a zero denominator. -/
def npdiv (a b : ℚ) : ℚ :=
  a / b

/-- `calculate_margin`: the per-ticker `ValuationResult` triple
`(currentValue, intrinsicValuePerShare rounded to 2 decimals, margin rounded
to 2 decimals)` where the margin is `(dcf_val - current_val) / current_val`.
The margin quotient is numpy float64 division (`npdiv`), which does not
raise on a zero `current_val`, so the computation succeeds for every price. -/
def calculate_margin (s : FinancialSnapshot) (years : ℕ := 10) :
    Except DCFError (ℚ × ℚ × ℚ) := do
  let dcf_val ← compute_dcf s years
  let current_val := current_sure_value s
  let m := npdiv (dcf_val - current_val) current_val
  Except.ok (current_val, roundTo2 dcf_val, roundTo2 m)

/-- Fetching a ticker's snapshot from the data provider; an unknown ticker is
a `notFound` error. -/
def fetch_snapshot (env : String → Option FinancialSnapshot) (t : String) :
    Except DCFError FinancialSnapshot :=
  match env t with
  | none => Except.error DCFError.notFound
  | some s => Except.ok s

/-- One ticker of the batch: fetch the snapshot and run `calculate_margin`,
pairing the result with the ticker symbol. -/
def process_ticker (env : String → Option FinancialSnapshot) (years : ℕ) (t : String) :
    Except DCFError (String × (ℚ × ℚ × ℚ)) := do
  let s ← fetch_snapshot env t
  let r ← calculate_margin s years
  Except.ok (t, r)

/-- The batch list comprehension of `__main__`: process the tickers left to
right; the first uncaught per-ticker exception aborts the whole run. -/
def runBatch (env : String → Option FinancialSnapshot) (years : ℕ) :
    List String → Except DCFError (List (String × (ℚ × ℚ × ℚ)))
  | [] => Except.ok []
  | t :: ts => do
      let p ← process_ticker env years t
      let rest ← runBatch env years ts
      Except.ok (p :: rest)

/-- The sort key of the ranking: the (rounded) margin component of a
`(ticker, ValuationResult)` pair, i.e. `x[1][2]`. -/
def margin_key (x : String × (ℚ × ℚ × ℚ)) : ℚ :=
  x.2.2.2

/-- Stable descending insertion by `margin_key`: the new element goes in
front of the first element whose key is not larger, so it stays behind every
earlier element with an equal key. -/
def insert_by_margin (x : String × (ℚ × ℚ × ℚ)) :
    List (String × (ℚ × ℚ × ℚ)) → List (String × (ℚ × ℚ × ℚ))
  | [] => [x]
  | y :: ys =>
      if margin_key y ≤ margin_key x then x :: y :: ys else y :: insert_by_margin x ys

/-- Python's `sorted(dcf, key=lambda x: x[1][2], reverse=True)`: the stable
sort by margin, descending.  A stable sort is unique given the key order, so
insertion sort is an exact model of Python's (stable) sort. -/
def sort_by_margin : List (String × (ℚ × ℚ × ℚ)) → List (String × (ℚ × ℚ × ℚ))
  | [] => []
  | x :: xs => insert_by_margin x (sort_by_margin xs)

/-- The ranked table of `__main__`: the batch results sorted by margin,
descending. -/
def rankBatch (env : String → Option FinancialSnapshot) (years : ℕ)
    (tickers : List String) : Except DCFError (List (String × (ℚ × ℚ × ℚ))) :=
  Except.map sort_by_margin (runBatch env years tickers)

/-! ## Concrete snapshots and environments used to instantiate the theorems -/

/-- A fully regular snapshot: positive free cash flow, debt, tax, interest. -/
def sW : FinancialSnapshot :=
  { currentPrice := 10, marketCap := 100, beta := 1, sharesOutstanding := 2,
    riskFreeRate := 1/20, totalDebt := 100, interestExpense := some 5,
    taxProvision := 1, pretaxIncome := 4, freeCashFlow := 8,
    cashAndEquivalents := 3, nearTermGrowthEstimate := 1/10 }

/-- A snapshot whose intrinsic value per share is 10.01 against a price of 10:
the exact margin 0.001 rounds to 0.00. -/
def sC8 : FinancialSnapshot :=
  { currentPrice := 10, marketCap := 1, beta := 0, sharesOutstanding := 1,
    riskFreeRate := 0, totalDebt := 1, interestExpense := none,
    taxProvision := 0, pretaxIncome := 1, freeCashFlow := 0,
    cashAndEquivalents := 1101/100, nearTermGrowthEstimate := 0 }

/-- Like `sC8` but with intrinsic value 11.01: margin 0.101 rounds to 0.10. -/
def sB : FinancialSnapshot := { sC8 with cashAndEquivalents := 1201/100 }

/-- Like `sC8` but with intrinsic value 10.02: the exact margin 0.002 differs
from `sC8`'s 0.001, yet both round to 0.00. -/
def sQ : FinancialSnapshot := { sC8 with cashAndEquivalents := 551/50 }

/-- Like `sC8` but with zero total debt: the cost-of-debt division fails. -/
def sZeroDebt : FinancialSnapshot := { sC8 with totalDebt := 0 }

/-- Like `sC8` but with a current price of zero: the margin quotient has a
zero denominator. -/
def sZeroPrice : FinancialSnapshot := { sC8 with currentPrice := 0 }

/-- Environment with a zero-debt ticker "A" next to a healthy ticker "B". -/
def envC3W : String → Option FinancialSnapshot := fun t =>
  if t = "A" then some sZeroDebt else if t = "B" then some sC8 else none

/-- Environment that knows only ticker "B"; ticker "A" is not found. -/
def envC4W : String → Option FinancialSnapshot := fun t =>
  if t = "B" then some sC8 else none

/-- First environment of the two-run independence instance. -/
def env9a : String → Option FinancialSnapshot := fun t =>
  if t = "X" then some sC8 else if t = "Y" then some sB else none

/-- Second environment: agrees with `env9a` on "X" but carries a different
companion ticker. -/
def env9b : String → Option FinancialSnapshot := fun t =>
  if t = "X" then some sC8 else if t = "Z" then some sB else none

/-- Environment with two tickers whose exact margins differ but round to the
same two decimals. -/
def env10 : String → Option FinancialSnapshot := fun t =>
  if t = "P" then some sC8 else if t = "Q" then some sQ else none

/-! ## General lemmas about the embedding -/

@[simp] theorem ok_bind {α β : Type} (a : α) (f : α → Except DCFError β) :
    (Except.ok a >>= f) = f a := rfl

@[simp] theorem error_bind {α β : Type} (e : DCFError) (f : α → Except DCFError β) :
    ((Except.error e : Except DCFError α) >>= f) = Except.error e := rfl

@[simp] theorem except_map_ok {α β : Type} (f : α → β) (a : α) :
    Except.map f (Except.ok a : Except DCFError α) = Except.ok (f a) := rfl

@[simp] theorem except_map_error {α β : Type} (f : α → β) (e : DCFError) :
    Except.map f (Except.error e : Except DCFError α) = Except.error e := rfl

theorem pdiv_ne (a b : ℚ) (h : b ≠ 0) : pdiv a b = Except.ok (a / b) := by
  simp [pdiv, h]

theorem pdiv_den_zero (a : ℚ) : pdiv a 0 = Except.error DCFError.divisionByZero := by
  simp [pdiv]

theorem mem_insert_by_margin (x y : String × (ℚ × ℚ × ℚ)) :
    ∀ l : List (String × (ℚ × ℚ × ℚ)), y ∈ insert_by_margin x l ↔ y = x ∨ y ∈ l := by
  intro l
  induction l with
  | nil => simp [insert_by_margin]
  | cons z zs ih =>
      by_cases hc : margin_key z ≤ margin_key x
      · simp [insert_by_margin, hc]
      · simp [insert_by_margin, hc, ih]
        tauto

theorem pairwise_insert_by_margin (x : String × (ℚ × ℚ × ℚ)) :
    ∀ l : List (String × (ℚ × ℚ × ℚ)),
      l.Pairwise (fun a b => margin_key b ≤ margin_key a) →
      (insert_by_margin x l).Pairwise (fun a b => margin_key b ≤ margin_key a) := by
  intro l
  induction l with
  | nil => intro _; simp [insert_by_margin]
  | cons z zs ih =>
      intro h
      rcases List.pairwise_cons.mp h with ⟨hz, hzs⟩
      by_cases hc : margin_key z ≤ margin_key x
      · simp only [insert_by_margin, if_pos hc]
        refine List.pairwise_cons.mpr ⟨?_, h⟩
        intro b hb
        rcases List.mem_cons.mp hb with rfl | hbzs
        · exact hc
        · exact le_trans (hz b hbzs) hc
      · simp only [insert_by_margin, if_neg hc]
        refine List.pairwise_cons.mpr ⟨?_, ih hzs⟩
        intro b hb
        rcases (mem_insert_by_margin x b zs).mp hb with rfl | hbzs
        · exact le_of_lt (lt_of_not_le hc)
        · exact hz b hbzs

theorem filter_insert_by_margin (k : ℚ) (x : String × (ℚ × ℚ × ℚ)) :
    ∀ l : List (String × (ℚ × ℚ × ℚ)),
      (insert_by_margin x l).filter (fun z => margin_key z = k)
        = if margin_key x = k then x :: l.filter (fun z => margin_key z = k)
          else l.filter (fun z => margin_key z = k) := by
  intro l
  induction l with
  | nil =>
      by_cases hx : margin_key x = k <;>
        simp [insert_by_margin, List.filter_cons, hx]
  | cons z zs ih =>
      by_cases hc : margin_key z ≤ margin_key x
      · simp only [insert_by_margin, if_pos hc]
        by_cases hx : margin_key x = k <;> simp [List.filter_cons, hx]
      · have hzx : margin_key x < margin_key z := lt_of_not_le hc
        simp only [insert_by_margin, if_neg hc]
        by_cases hx : margin_key x = k
        · have hz : ¬ margin_key z = k := by
            rw [← hx]
            exact ne_of_gt hzx
          simp [List.filter_cons, hx, hz, ih]
        · by_cases hzk : margin_key z = k <;> simp [List.filter_cons, hx, hzk, ih]

theorem sort_by_margin_pairwise :
    ∀ l : List (String × (ℚ × ℚ × ℚ)),
      (sort_by_margin l).Pairwise (fun a b => margin_key b ≤ margin_key a) := by
  intro l
  induction l with
  | nil => simp [sort_by_margin]
  | cons x xs ih =>
      simp only [sort_by_margin]
      exact pairwise_insert_by_margin x _ ih

theorem sort_by_margin_filter :
    ∀ (l : List (String × (ℚ × ℚ × ℚ))) (k : ℚ),
      (sort_by_margin l).filter (fun z => margin_key z = k)
        = l.filter (fun z => margin_key z = k) := by
  intro l
  induction l with
  | nil => intro k; simp [sort_by_margin]
  | cons x xs ih =>
      intro k
      simp only [sort_by_margin]
      rw [filter_insert_by_margin k x (sort_by_margin xs)]
      by_cases hx : margin_key x = k <;>
        simp [List.filter_cons, hx, ih]
theorem compute_dcf_error (s : FinancialSnapshot) (years : ℕ) (e : DCFError)
    (hw : get_wacc s = Except.error e) : compute_dcf s years = Except.error e := by
  simp [compute_dcf, get_discount_rate, hw]

theorem calculate_margin_error (s : FinancialSnapshot) (years : ℕ) (e : DCFError)
    (h : compute_dcf s years = Except.error e) :
    calculate_margin s years = Except.error e := by
  simp [calculate_margin, h]

theorem calculate_margin_ok (s : FinancialSnapshot) (years : ℕ) (d : ℚ)
    (hd : compute_dcf s years = Except.ok d) (hp : s.currentPrice ≠ 0) :
    calculate_margin s years =
      Except.ok (s.currentPrice, roundTo2 d, roundTo2 ((d - s.currentPrice) / s.currentPrice)) := by
  simp [calculate_margin, hd, current_sure_value, npdiv]

theorem process_ticker_ok_fst (env : String → Option FinancialSnapshot) (years : ℕ)
    (t : String) (p : String × (ℚ × ℚ × ℚ))
    (h : process_ticker env years t = Except.ok p) : p.1 = t := by
  rcases hs : env t with _ | s
  · simp [process_ticker, fetch_snapshot, hs] at h
  · rcases hr : calculate_margin s years with e | r
    · simp [process_ticker, fetch_snapshot, hs, hr] at h
    · simp only [process_ticker, fetch_snapshot, hs, ok_bind, hr, Except.ok.injEq] at h
      rw [← h]

theorem runBatch_ok_mem (env : String → Option FinancialSnapshot) (years : ℕ) :
    ∀ (ts : List String) (out : List (String × (ℚ × ℚ × ℚ))),
      runBatch env years ts = Except.ok out →
      ∀ p ∈ out, process_ticker env years p.1 = Except.ok p := by
  intro ts
  induction ts with
  | nil =>
      intro out h p hp
      simp only [runBatch, Except.ok.injEq] at h
      rw [← h] at hp
      simp at hp
  | cons t ts ih =>
      intro out h p hp
      rcases hpt : process_ticker env years t with e | q
      · simp [runBatch, hpt] at h
      · rcases hrest : runBatch env years ts with e | rest
        · simp [runBatch, hpt, hrest] at h
        · simp only [runBatch, hpt, ok_bind, hrest, Except.ok.injEq] at h
          rw [← h] at hp
          rcases List.mem_cons.mp hp with rfl | hmem
          · rw [process_ticker_ok_fst env years t p hpt]
            exact hpt
          · exact ih rest hrest p hmem

theorem runBatch_ok_forall (env : String → Option FinancialSnapshot) (years : ℕ) :
    ∀ (ts : List String) (out : List (String × (ℚ × ℚ × ℚ))),
      runBatch env years ts = Except.ok out →
      ∀ t ∈ ts, ∃ p, process_ticker env years t = Except.ok p := by
  intro ts
  induction ts with
  | nil =>
      intro out _ t ht
      simp at ht
  | cons t0 ts ih =>
      intro out h t ht
      rcases hpt : process_ticker env years t0 with e | q
      · simp [runBatch, hpt] at h
      · rcases hrest : runBatch env years ts with e | rest
        · simp [runBatch, hpt, hrest] at h
        · rcases List.mem_cons.mp ht with rfl | hmem
          · exact ⟨q, hpt⟩
          · exact ih rest hrest t hmem

theorem process_ticker_env_congr (env1 env2 : String → Option FinancialSnapshot)
    (years : ℕ) (t : String) (henv : env1 t = env2 t) :
    process_ticker env1 years t = process_ticker env2 years t := by
  simp only [process_ticker, fetch_snapshot, henv]
theorem project_loop_eq (fcf g r : ℚ) (h : (1 : ℚ) + r ≠ 0) :
    ∀ n : ℕ, project_loop fcf g r n =
      Except.ok (∑ year in Finset.Icc 1 n, fcf * (1 + g) ^ year / (1 + r) ^ year) := by
  intro n
  induction n with
  | zero =>
      rw [Finset.Icc_eq_empty (by omega)]
      simp [project_loop]
  | succ n ih =>
      simp only [project_loop, ih, ok_bind, pdiv_ne _ _ (pow_ne_zero (n + 1) h)]
      rw [Finset.sum_Icc_succ_top (by omega : 1 ≤ n + 1)]

/-- C1: for every snapshot, projection horizon `years > 0`, terminal growth
rate `tg` and discount rate `r` (the WACC the program derives, with `g` the
near-term growth estimate used only in the explicit projection years and `tg`
only in the terminal value), the intrinsic value per share returned by
`compute_dcf` equals
`((∑ year in 1..years, fcf * (1+g)^year / (1+r)^year)
  + fcf * (1+tg)^years / (r - tg) + cash - totalDebt) / sharesOutstanding`. -/
theorem compute_dcf_formula (s : FinancialSnapshot) (years : ℕ) (r g tg : ℚ)
    (hy : 0 < years)
    (hw : get_wacc s = Except.ok r)
    (hg : get_growth_rate s false = g)
    (htg : get_growth_rate s true = tg)
    (h1r : (1 : ℚ) + r ≠ 0)
    (hrtg : r - tg ≠ 0)
    (hsh : get_share_num s ≠ 0) :
    compute_dcf s years = Except.ok
      (((∑ year in Finset.Icc 1 years, s.freeCashFlow * (1 + g) ^ year / (1 + r) ^ year)
        + s.freeCashFlow * (1 + tg) ^ years / (r - tg)
        + s.cashAndEquivalents - s.totalDebt) / s.sharesOutstanding) := by
  subst hg htg
  have hterm : get_terminal_value s years =
      Except.ok (s.freeCashFlow * (1 + get_growth_rate s true) ^ years
        / (r - get_growth_rate s true)) := by
    simp only [get_terminal_value, get_free_cash_flow, get_discount_rate, hw, ok_bind,
      pdiv_ne _ _ hrtg]
  have hsh' : s.sharesOutstanding ≠ 0 := hsh
  simp only [compute_dcf, get_free_cash_flow, get_discount_rate, hw, ok_bind,
    project_loop_eq _ _ _ h1r years, hterm, get_share_num, pdiv_ne _ _ hsh']
/-- C2: for every snapshot with `marketCap + totalDebt ≠ 0`, the discount
rate returned by `get_wacc` equals
`weightEquity * costOfEquity + weightDebt * costOfDebt * (1 - taxRate)` with
`costOfEquity = riskFreeRate + beta * (marketReturn - riskFreeRate)`,
`costOfDebt = interestExpense / totalDebt`,
`taxRate = taxProvision / pretaxIncome`,
`weightEquity = marketCap / (marketCap + totalDebt)` and
`weightDebt = 1 - weightEquity`; the tax rate and the cost of debt are passed
through without clamping. -/
theorem get_wacc_formula (s : FinancialSnapshot) (w : ℚ)
    (hv : s.marketCap + s.totalDebt ≠ 0)
    (hw : get_wacc s = Except.ok w) :
    w = s.marketCap / (s.marketCap + s.totalDebt)
          * (get_risk_free_rate s + s.beta * (get_market_return - get_risk_free_rate s))
        + (1 - s.marketCap / (s.marketCap + s.totalDebt))
          * (s.interestExpense.getD 0 / s.totalDebt)
          * (1 - s.taxProvision / s.pretaxIncome) := by
  by_cases hd : s.totalDebt = 0
  · simp [get_wacc, pdiv, hd] at hw
  · by_cases hp : s.pretaxIncome = 0
    · simp [get_wacc, pdiv, hd, hp] at hw
    · simp only [get_wacc, pdiv_ne _ _ hd, pdiv_ne _ _ hp, pdiv_ne _ _ hv, ok_bind,
        Except.ok.injEq] at hw
      rw [← hw]
      field_simp
/-- C5: for every sequence of `(ticker, ValuationResult)` pairs, the ranked
output is sorted by margin in descending order, and entries with equal
margins appear in their original input order (the sort is stable: filtering
the output to any fixed margin value gives exactly the input's subsequence
for that value). -/
theorem ranking_sorted_and_stable (l : List (String × (ℚ × ℚ × ℚ))) :
    (sort_by_margin l).Pairwise (fun a b => margin_key b ≤ margin_key a) ∧
    ∀ k : ℚ, (sort_by_margin l).filter (fun z => margin_key z = k)
      = l.filter (fun z => margin_key z = k) :=
  ⟨sort_by_margin_pairwise l, fun k => sort_by_margin_filter l k⟩

/-- C6 (amended): for every ticker with `currentValue > 0` whose valuation
succeeded, the margin field of the `ValuationResult` equals
`(intrinsicValuePerShare - currentValue) / currentValue` rounded to 2
decimals.  The original claim's clause that the margin computation fails when
`currentValue = 0` is false of the source: the margin quotient is numpy
float64 division, which does not raise there (see the counterexample
`margin_zero_price_no_failure_cex`). -/
theorem calculate_margin_formula (s : FinancialSnapshot) (years : ℕ) (d : ℚ)
    (hd : compute_dcf s years = Except.ok d)
    (hp : 0 < s.currentPrice) :
    calculate_margin s years =
      Except.ok
        (s.currentPrice, roundTo2 d, roundTo2 ((d - s.currentPrice) / s.currentPrice)) :=
  calculate_margin_ok s years d hd (ne_of_gt hp)

/-- C7: for every snapshot and `years > 0`, if the discount rate exceeds the
terminal growth rate and the free cash flow is positive, then the terminal
value computed by `get_terminal_value` is strictly positive. -/
theorem terminal_value_pos (s : FinancialSnapshot) (years : ℕ) (r tv : ℚ)
    (hy : 0 < years)
    (hw : get_wacc s = Except.ok r)
    (hgt : get_growth_rate s true < r)
    (hf : 0 < s.freeCashFlow)
    (htv : get_terminal_value s years = Except.ok tv) :
    0 < tv := by
  have hne : r - get_growth_rate s true ≠ 0 := sub_ne_zero.mpr (ne_of_gt hgt)
  simp only [get_terminal_value, get_free_cash_flow, get_discount_rate, hw, ok_bind,
    pdiv_ne _ _ hne, Except.ok.injEq] at htv
  rw [← htv]
  apply div_pos
  · apply mul_pos hf
    apply pow_pos
    norm_num [get_growth_rate]
  · exact sub_pos.mpr hgt

/-- C8 (amended): for every ticker with `currentValue > 0`, the sign of the
margin BEFORE the 2-decimal rounding, i.e. of
`(intrinsicValuePerShare - currentValue) / currentValue`, equals the sign of
`intrinsicValuePerShare - currentValue`.  (The rounded margin stored in the
`ValuationResult` can be zero although the difference is nonzero, see the
counterexample `margin_sign_cex`.) -/
theorem margin_sign_unrounded (s : FinancialSnapshot) (years : ℕ) (d : ℚ)
    (hd : compute_dcf s years = Except.ok d)
    (hp : 0 < s.currentPrice) :
    (0 < (d - s.currentPrice) / s.currentPrice ↔ 0 < d - s.currentPrice) ∧
    ((d - s.currentPrice) / s.currentPrice = 0 ↔ d - s.currentPrice = 0) ∧
    ((d - s.currentPrice) / s.currentPrice < 0 ↔ d - s.currentPrice < 0) := by
  refine ⟨?_, ?_, ?_⟩
  · rw [div_pos_iff]
    constructor
    · rintro (⟨h1, _⟩ | ⟨_, h2⟩)
      · exact h1
      · exact absurd hp (not_lt.mpr (le_of_lt h2))
    · intro h
      exact Or.inl ⟨h, hp⟩
  · rw [div_eq_zero_iff]
    constructor
    · rintro (h1 | h2)
      · exact h1
      · exact absurd h2 (ne_of_gt hp)
    · intro h
      exact Or.inl h
  · rw [div_neg_iff]
    constructor
    · rintro (⟨_, h2⟩ | ⟨h1, _⟩)
      · exact absurd hp (not_lt.mpr (le_of_lt h2))
      · exact h1
    · intro h
      exact Or.inr ⟨h, hp⟩

/-- C9: in a batch run, the `ValuationResult` produced for a ticker is a
function of that ticker's snapshot and the configuration alone: two runs
whose environments agree on the ticker's snapshot and that use the same
configuration give that ticker identical results, whatever other tickers
appear in either batch and in whatever order. -/
theorem result_independent_of_batch (env1 env2 : String → Option FinancialSnapshot)
    (years : ℕ) (ts1 ts2 : List String)
    (out1 out2 : List (String × (ℚ × ℚ × ℚ))) (t : String) (v1 v2 : ℚ × ℚ × ℚ)
    (henv : env1 t = env2 t)
    (h1 : runBatch env1 years ts1 = Except.ok out1)
    (h2 : runBatch env2 years ts2 = Except.ok out2)
    (m1 : (t, v1) ∈ out1) (m2 : (t, v2) ∈ out2) :
    v1 = v2 := by
  have p1 := runBatch_ok_mem env1 years ts1 out1 h1 (t, v1) m1
  have p2 := runBatch_ok_mem env2 years ts2 out2 h2 (t, v2) m2
  rw [process_ticker_env_congr env1 env2 years t henv] at p1
  rw [p2] at p1
  simp only [Except.ok.injEq, Prod.mk.injEq] at p1
  exact p1.2.symm

/-- C3 (amended): for every snapshot with `totalDebt = 0`, the WACC
computation signals an explicit division-by-zero error (rather than
returning 0, infinity, or NaN); however, the affected ticker is NOT excluded
from the ranked output with a reported error: the error propagates out of
the batch, which produces no ranking at all (see the counterexample
`wacc_zero_debt_not_excluded_cex`). -/
theorem wacc_zero_debt_error (s : FinancialSnapshot)
    (env : String → Option FinancialSnapshot) (t : String) (rest : List String)
    (years : ℕ)
    (h : s.totalDebt = 0) (he : env t = some s) :
    get_wacc s = Except.error DCFError.divisionByZero ∧
    calculate_margin s years = Except.error DCFError.divisionByZero ∧
    rankBatch env years (t :: rest) = Except.error DCFError.divisionByZero := by
  have hw : get_wacc s = Except.error DCFError.divisionByZero := by
    simp [get_wacc, pdiv, h]
  have hcm : calculate_margin s years = Except.error DCFError.divisionByZero :=
    calculate_margin_error s years _ (compute_dcf_error s years _ hw)
  refine ⟨hw, hcm, ?_⟩
  simp [rankBatch, runBatch, process_ticker, fetch_snapshot, he, hcm]

/-- C4 (amended): a per-ticker failure (missing ticker or division-by-zero
condition) is NOT scoped to that ticker: the batch has no per-ticker error
handling, so one failing ticker in the batch means no ranked table is
produced at all (see the counterexample `per_ticker_failure_cex`). -/
theorem per_ticker_failure_aborts (env : String → Option FinancialSnapshot)
    (years : ℕ) (tickers : List String) (t : String)
    (ht : t ∈ tickers)
    (hfail : is_ok (process_ticker env years t) = false) :
    is_ok (rankBatch env years tickers) = false := by
  rcases hrb : runBatch env years tickers with e | out
  · simp [rankBatch, hrb, is_ok]
  · exfalso
    obtain ⟨p, hp⟩ := runBatch_ok_forall env years tickers out hrb t ht
    rw [hp] at hfail
    simp [is_ok] at hfail

/-- C10: the ranking comparator uses the 2-decimal-rounded margin, not the
exact margin: two tickers whose exact margins differ but round to the same
2-decimal value are ordered by original input position in the ranked
output, not by their exact margins. -/
theorem ranking_ties_by_rounded_margin (env : String → Option FinancialSnapshot)
    (years : ℕ) (t1 t2 : String) (s1 s2 : FinancialSnapshot) (d1 d2 : ℚ)
    (he1 : env t1 = some s1) (he2 : env t2 = some s2)
    (hd1 : compute_dcf s1 years = Except.ok d1)
    (hd2 : compute_dcf s2 years = Except.ok d2)
    (hp1 : s1.currentPrice ≠ 0) (hp2 : s2.currentPrice ≠ 0)
    (hne : (d1 - s1.currentPrice) / s1.currentPrice ≠ (d2 - s2.currentPrice) / s2.currentPrice)
    (heq : roundTo2 ((d1 - s1.currentPrice) / s1.currentPrice)
         = roundTo2 ((d2 - s2.currentPrice) / s2.currentPrice)) :
    rankBatch env years [t1, t2] = Except.ok
      [(t1, (s1.currentPrice, roundTo2 d1, roundTo2 ((d1 - s1.currentPrice) / s1.currentPrice))),
       (t2, (s2.currentPrice, roundTo2 d2, roundTo2 ((d2 - s2.currentPrice) / s2.currentPrice)))] := by
  have hm1 := calculate_margin_ok s1 years d1 hd1 hp1
  have hm2 := calculate_margin_ok s2 years d2 hd2 hp2
  simp only [rankBatch, runBatch, process_ticker, fetch_snapshot, he1, he2, ok_bind,
    hm1, hm2, except_map_ok]
  simp only [sort_by_margin, insert_by_margin, margin_key]
  rw [if_pos (le_of_eq heq.symm)]
theorem get_wacc_sW : get_wacc sW = Except.ok (11/160) := by
  norm_num [get_wacc, sW, get_risk_free_rate, get_market_return, pdiv, Option.getD]

theorem get_terminal_value_sW1 : get_terminal_value sW 1 = Except.ok (6592/31) := by
  norm_num [get_terminal_value, get_free_cash_flow, get_growth_rate, get_discount_rate,
    get_wacc, sW, get_risk_free_rate, get_market_return, pdiv, Option.getD]

theorem compute_dcf_sC8 : compute_dcf sC8 1 = Except.ok (1001/100) := by
  norm_num [compute_dcf, sC8, get_free_cash_flow, get_discount_rate, get_wacc,
    get_risk_free_rate, get_market_return, get_growth_rate, get_share_num,
    get_terminal_value, project_loop, pdiv, Option.getD]

theorem compute_dcf_sB : compute_dcf sB 1 = Except.ok (1101/100) := by
  norm_num [compute_dcf, sB, sC8, get_free_cash_flow, get_discount_rate, get_wacc,
    get_risk_free_rate, get_market_return, get_growth_rate, get_share_num,
    get_terminal_value, project_loop, pdiv, Option.getD]

theorem compute_dcf_sQ : compute_dcf sQ 1 = Except.ok (501/50) := by
  norm_num [compute_dcf, sQ, sC8, get_free_cash_flow, get_discount_rate, get_wacc,
    get_risk_free_rate, get_market_return, get_growth_rate, get_share_num,
    get_terminal_value, project_loop, pdiv, Option.getD]

theorem roundTo2_1001_100 : roundTo2 (1001/100) = 1001/100 := by
  norm_num [roundTo2, roundHalfEven, Int.floor_eq_iff]

theorem roundTo2_1101_100 : roundTo2 (1101/100) = 1101/100 := by
  norm_num [roundTo2, roundHalfEven, Int.floor_eq_iff]

theorem roundTo2_501_50 : roundTo2 (501/50) = 501/50 := by
  norm_num [roundTo2, roundHalfEven, Int.floor_eq_iff]

theorem roundTo2_1_1000 : roundTo2 (1/1000) = 0 := by
  norm_num [roundTo2, roundHalfEven, Int.floor_eq_iff]

theorem roundTo2_1_500 : roundTo2 (1/500) = 0 := by
  norm_num [roundTo2, roundHalfEven, Int.floor_eq_iff]

theorem roundTo2_101_1000 : roundTo2 (101/1000) = 1/10 := by
  norm_num [roundTo2, roundHalfEven, Int.floor_eq_iff]

theorem calculate_margin_sC8 : calculate_margin sC8 1 = Except.ok (10, 1001/100, 0) := by
  rw [calculate_margin_ok sC8 1 (1001/100) compute_dcf_sC8 (by norm_num [sC8])]
  norm_num [sC8, roundTo2_1001_100, roundTo2_1_1000]

theorem calculate_margin_sB : calculate_margin sB 1 = Except.ok (10, 1101/100, 1/10) := by
  rw [calculate_margin_ok sB 1 (1101/100) compute_dcf_sB (by norm_num [sB, sC8])]
  norm_num [sB, sC8, roundTo2_1101_100, roundTo2_101_1000]

theorem calculate_margin_sQ : calculate_margin sQ 1 = Except.ok (10, 501/50, 0) := by
  rw [calculate_margin_ok sQ 1 (501/50) compute_dcf_sQ (by norm_num [sQ, sC8])]
  norm_num [sQ, sC8, roundTo2_501_50, roundTo2_1_500]

theorem runBatch_9a : runBatch env9a 1 ["Y", "X"] =
    Except.ok [("Y", (10, 1101/100, 1/10)), ("X", (10, 1001/100, 0))] := by
  simp [runBatch, process_ticker, fetch_snapshot, env9a, calculate_margin_sC8,
    calculate_margin_sB]

theorem runBatch_9b : runBatch env9b 1 ["X", "Z"] =
    Except.ok [("X", (10, 1001/100, 0)), ("Z", (10, 1101/100, 1/10))] := by
  simp [runBatch, process_ticker, fetch_snapshot, env9b, calculate_margin_sC8,
    calculate_margin_sB]
/-- C1 witness -/
theorem compute_dcf_formula_witness :
    (0 < 1 ∧ get_wacc sW = Except.ok (11/160) ∧ get_growth_rate sW false = 1/10 ∧
      get_growth_rate sW true = 3/100 ∧ ((1 : ℚ) + 11/160 ≠ 0) ∧
      ((11/160 : ℚ) - 3/100 ≠ 0) ∧ get_share_num sW ≠ 0) ∧
    compute_dcf sW 1 = Except.ok
      (((∑ year in Finset.Icc 1 1, sW.freeCashFlow * (1 + 1/10) ^ year / (1 + 11/160) ^ year)
        + sW.freeCashFlow * (1 + 3/100) ^ 1 / (11/160 - 3/100)
        + sW.cashAndEquivalents - sW.totalDebt) / sW.sharesOutstanding) :=
  ⟨⟨by norm_num, get_wacc_sW, by norm_num [get_growth_rate, sW], by norm_num [get_growth_rate],
    by norm_num, by norm_num, by norm_num [get_share_num, sW]⟩,
   compute_dcf_formula sW 1 (11/160) (1/10) (3/100) (by norm_num) get_wacc_sW
     (by norm_num [get_growth_rate, sW]) (by norm_num [get_growth_rate]) (by norm_num)
     (by norm_num) (by norm_num [get_share_num, sW])⟩

/-- C2 witness -/
theorem get_wacc_formula_witness :
    (sW.marketCap + sW.totalDebt ≠ 0) ∧
    (11/160 : ℚ) = sW.marketCap / (sW.marketCap + sW.totalDebt)
          * (get_risk_free_rate sW + sW.beta * (get_market_return - get_risk_free_rate sW))
        + (1 - sW.marketCap / (sW.marketCap + sW.totalDebt))
          * (sW.interestExpense.getD 0 / sW.totalDebt)
          * (1 - sW.taxProvision / sW.pretaxIncome) :=
  ⟨by norm_num [sW], get_wacc_formula sW (11/160) (by norm_num [sW]) get_wacc_sW⟩

/-- C3 counterexample -/
theorem wacc_zero_debt_not_excluded_cex :
    envC3W "A" = some sZeroDebt ∧ sZeroDebt.totalDebt = 0 ∧
    envC3W "B" = some sC8 ∧
    calculate_margin sC8 1 = Except.ok (10, 1001/100, 0) ∧
    rankBatch envC3W 1 ["A", "B"] = Except.error DCFError.divisionByZero :=
  ⟨rfl, rfl, rfl, calculate_margin_sC8, rfl⟩

/-- C3 witness -/
theorem wacc_zero_debt_error_witness :
    (sZeroDebt.totalDebt = 0 ∧ envC3W "A" = some sZeroDebt) ∧
    (get_wacc sZeroDebt = Except.error DCFError.divisionByZero ∧
     calculate_margin sZeroDebt 1 = Except.error DCFError.divisionByZero ∧
     rankBatch envC3W 1 ("A" :: ["B"]) = Except.error DCFError.divisionByZero) :=
  ⟨⟨rfl, rfl⟩, wacc_zero_debt_error sZeroDebt envC3W "A" ["B"] 1 rfl rfl⟩

/-- C4 counterexample -/
theorem per_ticker_failure_cex :
    envC4W "B" = some sC8 ∧
    rankBatch envC4W 1 ["A", "B"] = Except.error DCFError.notFound :=
  ⟨rfl, rfl⟩

/-- C4 witness -/
theorem per_ticker_failure_aborts_witness :
    ("A" ∈ ["A", "B"] ∧ is_ok (process_ticker envC4W 1 "A") = false) ∧
    is_ok (rankBatch envC4W 1 ["A", "B"]) = false :=
  ⟨⟨by simp, rfl⟩, per_ticker_failure_aborts envC4W 1 ["A", "B"] "A" (by simp) rfl⟩

/-- C6 counterexample: at a snapshot whose current price is zero (and whose
valuation succeeds), `calculate_margin` does not fail — the numpy float64
margin division does not raise — refuting the original claim's clause that
the margin computation fails when `currentValue = 0`. -/
theorem margin_zero_price_no_failure_cex :
    sZeroPrice.currentPrice = 0 ∧
    compute_dcf sZeroPrice 1 = Except.ok (1001/100) ∧
    is_ok (calculate_margin sZeroPrice 1) = true := by
  have hcd : compute_dcf sZeroPrice 1 = Except.ok (1001/100) := by
    norm_num [compute_dcf, sZeroPrice, sC8, get_free_cash_flow, get_discount_rate, get_wacc,
      get_risk_free_rate, get_market_return, get_growth_rate, get_share_num,
      get_terminal_value, project_loop, pdiv, Option.getD]
  refine ⟨rfl, hcd, ?_⟩
  simp [calculate_margin, hcd, is_ok]

/-- C6 witness -/
theorem calculate_margin_formula_witness :
    (compute_dcf sC8 1 = Except.ok (1001/100) ∧ (0 : ℚ) < sC8.currentPrice) ∧
    calculate_margin sC8 1 =
      Except.ok (sC8.currentPrice, roundTo2 (1001/100),
        roundTo2 ((1001/100 - sC8.currentPrice) / sC8.currentPrice)) :=
  ⟨⟨compute_dcf_sC8, by norm_num [sC8]⟩,
   calculate_margin_formula sC8 1 (1001/100) compute_dcf_sC8 (by norm_num [sC8])⟩

/-- C7 witness -/
theorem terminal_value_pos_witness :
    (0 < 1 ∧ get_wacc sW = Except.ok (11/160) ∧ get_growth_rate sW true < 11/160 ∧
      0 < sW.freeCashFlow ∧ get_terminal_value sW 1 = Except.ok (6592/31)) ∧
    (0 : ℚ) < 6592/31 :=
  ⟨⟨by norm_num, get_wacc_sW, by norm_num [get_growth_rate], by norm_num [sW],
    get_terminal_value_sW1⟩,
   terminal_value_pos sW 1 (11/160) (6592/31) (by norm_num) get_wacc_sW
     (by norm_num [get_growth_rate]) (by norm_num [sW]) get_terminal_value_sW1⟩

/-- C8 counterexample -/
theorem margin_sign_cex :
    compute_dcf sC8 1 = Except.ok (1001/100) ∧
    calculate_margin sC8 1 = Except.ok (10, 1001/100, 0) ∧
    (0 : ℚ) < 1001/100 - 10 :=
  ⟨compute_dcf_sC8, calculate_margin_sC8, by norm_num⟩

/-- C8 witness -/
theorem margin_sign_unrounded_witness :
    (compute_dcf sC8 1 = Except.ok (1001/100) ∧ (0 : ℚ) < sC8.currentPrice) ∧
    (0 < ((1001/100 : ℚ) - sC8.currentPrice) / sC8.currentPrice ↔
      0 < (1001/100 : ℚ) - sC8.currentPrice) :=
  ⟨⟨compute_dcf_sC8, by norm_num [sC8]⟩,
   (margin_sign_unrounded sC8 1 (1001/100) compute_dcf_sC8 (by norm_num [sC8])).1⟩

/-- C9 witness -/
theorem result_independent_of_batch_witness :
    (env9a "X" = env9b "X" ∧
     runBatch env9a 1 ["Y", "X"] =
       Except.ok [("Y", (10, 1101/100, 1/10)), ("X", (10, 1001/100, 0))] ∧
     runBatch env9b 1 ["X", "Z"] =
       Except.ok [("X", (10, 1001/100, 0)), ("Z", (10, 1101/100, 1/10))] ∧
     ("X", ((10 : ℚ), (1001/100 : ℚ), (0 : ℚ))) ∈
       [("Y", ((10 : ℚ), (1101/100 : ℚ), (1/10 : ℚ))),
        ("X", ((10 : ℚ), (1001/100 : ℚ), (0 : ℚ)))] ∧
     ("X", ((10 : ℚ), (1001/100 : ℚ), (0 : ℚ))) ∈
       [("X", ((10 : ℚ), (1001/100 : ℚ), (0 : ℚ))),
        ("Z", ((10 : ℚ), (1101/100 : ℚ), (1/10 : ℚ)))]) ∧
    ((10 : ℚ), (1001/100 : ℚ), (0 : ℚ)) = ((10 : ℚ), (1001/100 : ℚ), (0 : ℚ)) :=
  ⟨⟨rfl, runBatch_9a, runBatch_9b, by simp, by simp⟩,
   result_independent_of_batch env9a env9b 1 ["Y", "X"] ["X", "Z"] _ _ "X" _ _ rfl
     runBatch_9a runBatch_9b (by simp) (by simp)⟩

/-- C10 witness -/
theorem ranking_ties_by_rounded_margin_witness :
    (env10 "P" = some sC8 ∧ env10 "Q" = some sQ ∧
     compute_dcf sC8 1 = Except.ok (1001/100) ∧ compute_dcf sQ 1 = Except.ok (501/50) ∧
     sC8.currentPrice ≠ 0 ∧ sQ.currentPrice ≠ 0 ∧
     ((1001/100 : ℚ) - sC8.currentPrice) / sC8.currentPrice ≠
       ((501/50 : ℚ) - sQ.currentPrice) / sQ.currentPrice ∧
     roundTo2 (((1001/100 : ℚ) - sC8.currentPrice) / sC8.currentPrice) =
       roundTo2 (((501/50 : ℚ) - sQ.currentPrice) / sQ.currentPrice)) ∧
    rankBatch env10 1 ["P", "Q"] = Except.ok
      [("P", (sC8.currentPrice, roundTo2 (1001/100),
          roundTo2 (((1001/100 : ℚ) - sC8.currentPrice) / sC8.currentPrice))),
       ("Q", (sQ.currentPrice, roundTo2 (501/50),
          roundTo2 (((501/50 : ℚ) - sQ.currentPrice) / sQ.currentPrice)))] :=
  ⟨⟨rfl, rfl, compute_dcf_sC8, compute_dcf_sQ, by norm_num [sC8], by norm_num [sQ, sC8],
    by norm_num [sC8, sQ],
    by norm_num [sC8, sQ, roundTo2_1_1000, roundTo2_1_500]⟩,
   ranking_ties_by_rounded_margin env10 1 "P" "Q" sC8 sQ (1001/100) (501/50) rfl rfl
     compute_dcf_sC8 compute_dcf_sQ (by norm_num [sC8]) (by norm_num [sQ, sC8])
     (by norm_num [sC8, sQ])
     (by norm_num [sC8, sQ, roundTo2_1_1000, roundTo2_1_500])⟩
